import Mathlib

/-!
Shallow embedding of the jruby-launcherr launch-option resolution engine
(src/launch_options.rs, src/environment.rs, src/file_helper.rs) for the
non-Windows configuration (the `cfg(not(windows))` build: `JAVA_NAME = "java"`,
`SHELL = "-Djruby.shell=/bin/sh"`, `JSA_DIR = "lib"`, path separator `/`,
path-list separator `:`).

Filesystem queries (existence tests, directory scans, modification-time
comparison, the `/dev/urandom` access probe) are modelled as an injected
capability record, mirroring how the source itself injects existence
predicates for testability.  Strings stand for `OsString`/`String`; paths
(`PathBuf`) are modelled by their parsed component lists, which matches
`PathBuf` equality (component-wise) and the rendering of paths built by
`join` from clean components.
-/

/-- Splitting a character list at every occurrence of a separator character,
keeping empty pieces: the semantics of Rust's `split` on bytes (used by
`std::env::split_paths` on `:` and by `Path` component parsing on `/`).
Always returns at least one piece. -/
def splitChar (sep : Char) : List Char → List (List Char)
  | [] => [[]]
  | c :: cs =>
    match splitChar sep cs with
    | [] => [[c]]
    | t :: ts => if c = sep then [] :: t :: ts else (c :: t) :: ts

/-- Boolean prefix test on strings via their character lists: the semantics of
`OsStringExt::starts_with` in src/os_string_ext.rs (byte-wise prefix). -/
def strStartsWith (s p : String) : Bool :=
  p.data.isPrefixOf s.data

/-- Boolean suffix test on strings via their character lists: the semantics of
Rust `str::ends_with` as used for the `.jar` / `.jsa` scans. -/
def strEndsWith (s p : String) : Bool :=
  p.data.isSuffixOf s.data

/-- A filesystem path, modelled as Rust `PathBuf`: an absolute flag plus the
list of normal components.  (The claims never involve `.` or `..`
components, so those are not specially normalised.) -/
structure FsPath where
  absolute : Bool
  components : List String
deriving DecidableEq

/-- The empty path, `PathBuf::from("")`. -/
def emptyPath : FsPath := ⟨false, []⟩

instance : Inhabited FsPath := ⟨emptyPath⟩

/-- Parsing a string into a path, as `PathBuf::from` / `Path::new`: the path is
absolute when the string starts with the separator, and its components are
the non-empty pieces between separators. -/
def pathFromString (s : String) : FsPath :=
  ⟨decide (s.data.head? = some '/'),
   ((splitChar '/' s.data).map String.mk).filter (fun t => t ≠ "")⟩

/-- Rendering a path for display / `format!`, as produced for paths built from
clean components (Rust's `Path::display`). -/
def FsPath.render (p : FsPath) : String :=
  (if p.absolute then "/" else "") ++ String.intercalate "/" p.components

/-- `PathBuf::push` / `Path::join`: pushing an absolute path replaces the whole
buffer; pushing a relative path appends its components. -/
def FsPath.push (p q : FsPath) : FsPath :=
  if q.absolute then q else ⟨p.absolute, p.components ++ q.components⟩

/-- `Path::join` with a string-literal argument, `p.join(s)`. -/
def FsPath.joinStr (p : FsPath) (s : String) : FsPath :=
  p.push (pathFromString s)

/-- `Path::parent`: drop the last component; `None` on a root or empty path. -/
def FsPath.parent? : FsPath → Option FsPath
  | ⟨_, []⟩ => none
  | ⟨abs, cs⟩ => some ⟨abs, cs.dropLast⟩

/-- Whether `as_os_str().is_empty()` holds for the path. -/
def FsPath.isEmptyPath (p : FsPath) : Bool :=
  !p.absolute && decide (p.components = [])

/-- `path.ancestors().take(3)`: the path itself, its parent and its
grandparent, stopping early at a root. -/
def ancestors3 (p : FsPath) : List FsPath :=
  p :: (match p.parent? with
    | none => []
    | some q => q :: (match q.parent? with
      | none => []
      | some r => [r]))

/-- `Iterator<Item = &Path>::collect::<PathBuf>()`: fold the paths into an
empty buffer with `push` (so each absolute path replaces the accumulator). -/
def collectPath (l : List FsPath) : FsPath :=
  l.foldl FsPath.push emptyPath

/-- The climb applied in `launch_options::new` (line 76):
`executable.ancestors().take(3).collect()`.  For an absolute path with at
least two components this is its grandparent directory. -/
def climb3 (p : FsPath) : FsPath :=
  collectPath (ancestors3 p)

/-- `std::env::split_paths` on Unix: split the path-list string on `:`,
mapping every piece (including empty ones) to a path. -/
def split_paths (s : String) : List FsPath :=
  (splitChar ':' s.data).map (fun cs => pathFromString (String.mk cs))

/-- The error type of the launcher, `LaunchError` in src/launch_options.rs. -/
structure LaunchError where
  message : String
deriving DecidableEq

/-- The segments of a path-list string: the pieces between native separators,
in order (what `std::env::split_paths` iterates over). -/
def pathSegments (paths : String) : List String :=
  (splitChar ':' paths.data).map String.mk

/-- The candidate path examined for one path-list segment: the segment joined
with the searched file name (`path.join(file)` in `find_from_path`). -/
def pathCandidate (d file : String) : FsPath :=
  (pathFromString d).push (pathFromString file)

/-- Iterating over the directories of a path list, joining each with `file`
and returning the first hit: the loop body of `find_from_path`
(src/file_helper.rs). -/
def findInDirs (file : String) (test : FsPath → Bool) : List String → Option FsPath
  | [] => none
  | d :: ds =>
    let test_path := pathCandidate d file
    if test test_path then some test_path else findInDirs file test ds

/-- `find_from_path` (src/file_helper.rs, lines 4–17): split the optional path
list on the native separator, join each segment with `file`, and return the
first candidate satisfying the existence predicate; `none` when the list is
absent or no candidate matches. -/
def find_from_path (file : String) (path : Option String) (test : FsPath → Bool) :
    Option FsPath :=
  match path with
  | none => none
  | some paths => findInDirs file test (pathSegments paths)

/-- The environment snapshot, `Environment` in src/environment.rs.  The
`jruby_jsa_file` field is the explicit shared-cache-archive override consulted
by `prepare_options` (src/launch_options.rs line 515); it is referenced there
although the `Environment` declaration in src/environment.rs as given omits
it. -/
structure Environment where
  args : List String
  classpath : Option String
  current_dir : Option FsPath
  java_cmd : Option String
  java_encoding : Option String
  java_home : Option String
  java_mem : Option String
  java_opts : Option String
  java_stack : Option String
  jruby_opts : Option String
  jruby_home : Option String
  path : Option String
  jruby_jsa_file : Option String
deriving DecidableEq

/-- `Environment::argv0` on Unix: the first process argument as a path (the
source unwraps; an empty argument vector cannot occur in the pipeline). -/
def Environment.argv0 (env : Environment) : FsPath :=
  pathFromString (env.args.headD "")

/-- `Environment::derive_home_from_argv0` (src/environment.rs, lines 105–129):
an absolute argv0 is used as-is; a relative argv0 with a non-empty parent is
joined onto the current directory when that joined path passes the test;
otherwise argv0 is searched for on the PATH list, falling back to the literal
argv0. -/
def derive_home_from_argv0 (env : Environment) (argv0 : FsPath) (path : Option String)
    (test : FsPath → Bool) : FsPath :=
  if argv0.absolute then argv0
  else
    let relHit :=
      match argv0.parent?, env.current_dir with
      | some pp, some cd => !pp.isEmptyPath && test (cd.push argv0)
      | _, _ => false
    if relHit then (env.current_dir.getD emptyPath).push argv0
    else
      match find_from_path argv0.render path test with
      | some dir => dir
      | none => argv0

/-- `Environment::determine_jruby_executable` (src/environment.rs, lines
63–98).  `selfExe` stands for the platform `get_executable_path` probe.  The
explicit `JRUBY_HOME` override is accepted when a `bin` subdirectory exists
under it; otherwise the self-executable path, then the argv0 derivation
(which must pass the existence test or the call fails). -/
def determine_jruby_executable (env : Environment) (selfExe : Option FsPath)
    (test : FsPath → Bool) : Except LaunchError FsPath :=
  let fallback : Except LaunchError FsPath :=
    match selfExe with
    | some dir => Except.ok dir
    | none =>
      let dir := derive_home_from_argv0 env env.argv0 env.path test
      if test dir then Except.ok dir
      else Except.error ⟨"unable to find JRuby home"⟩
  match env.jruby_home with
  | some jh =>
    let dir := pathFromString jh
    if test (dir.joinStr "bin") then Except.ok dir else fallback
  | none => fallback

/-- The home resolution performed by `launch_options::new` (lines 75–76): the
result of `determine_jruby_executable` with `ancestors().take(3).collect()`
applied to it unconditionally. -/
def resolve_jruby_home (env : Environment) (selfExe : Option FsPath)
    (test : FsPath → Bool) : Except LaunchError FsPath :=
  (determine_jruby_executable env selfExe test).map climb3

/-- The filesystem / OS capability consulted by the resolution engine:
existence tests, directory-kind test, directory listing (entry paths in
iteration order), modification-time comparison (`is_newer`) and the
`/dev/urandom` read-access probe of `check_urandom`. -/
structure Fs where
  pathExists : FsPath → Bool
  isDir : FsPath → Bool
  readDir : FsPath → List String
  isNewer : FsPath → FsPath → Bool
  urandomReadable : Bool

/-- `MAIN_CLASS` (src/launch_options.rs line 15). -/
def MAIN_CLASS : String := "org/jruby/Main"

/-- `XSS_DEFAULT_OPT` (line 18). -/
def XSS_DEFAULT_OPT : String := "-Xss2048k"

/-- `SHELL` for the non-Windows build (line 46). -/
def SHELL : String := "-Djruby.shell=/bin/sh"

/-- `DEV_MODE_JAVA_OPTIONS` (lines 20–25). -/
def DEV_MODE_JAVA_OPTIONS : List String :=
  ["-XX:+TieredCompilation", "-XX:TieredStopAtLevel=1",
   "-Djruby.compile.mode=OFF", "-Djruby.compile.invokedynamic=false"]

/-- The mutable accumulator `LaunchOptions` (src/launch_options.rs, lines
86–122), with every field of the source struct. -/
structure LaunchOptions where
  fork_java : Bool
  command_only : Bool
  no_boot_classpath : Bool
  nailgun_client : Bool
  launcher_logfile : Option FsPath
  boot_class : Option String
  jdk_home : Option FsPath
  classpath_before : List FsPath
  classpath_after : List FsPath
  classpath_explicit : List FsPath
  classpath : List FsPath
  java_args : List String
  program_args : List String
  java_opts : List String
  jruby_opts : List String
  jruby_home : Option FsPath
  java_location : Option FsPath
  java_home : Option FsPath
  java_is_modular : Bool
  java_version : String
  java_major_version : Nat
  java_has_appcds : Bool
  use_appcds : Bool
  appcds_autogenerate : Bool
  native_access : Bool
  unsafe_memory : Bool
  regenerate_jsa_file : Bool
  xss : Option String
  boot_classpath : List FsPath
  suppress_console : Bool
  use_jsa_file : Bool
  remove_jsa_files : Bool
  log_cds : Bool
  jruby_jsa_file : Option FsPath
deriving DecidableEq

/-- `LaunchOptions::default()`: every flag false, every option `None`, every
list empty, the version string empty and the major version 0. -/
def LaunchOptions.default : LaunchOptions :=
  ⟨false, false, false, false, none, none, none, [], [], [], [], [], [], [],
   [], none, none, none, false, "", 0, false, false, false, false, false,
   false, none, [], false, false, false, false, none⟩

instance : Inhabited LaunchOptions := ⟨LaunchOptions.default⟩

/-- The result of the parse phase: normal completion with the updated
accumulator, an error return (`Err(LaunchError)`), or a process exit with the
given code (the `exit(2)` in the `--cache` branch). -/
inductive ParseResult where
  | ok (opts : LaunchOptions)
  | err (e : LaunchError)
  | exited (code : Nat)
deriving DecidableEq

/-- The ASCII whitespace set of `OsWhitespaceSplitIter`
(src/os_string_ext.rs, lines 139–143): tab, newline, form feed, carriage
return and space. -/
def isAsciiWs (c : Char) : Bool :=
  c = '\t' || c = '\n' || c = '\x0C' || c = '\r' || c = ' '

/-- The first index at or after `i` holding a non-whitespace character. -/
def firstNonWs (vec : List Char) (i : Nat) : Option Nat :=
  (List.range vec.length).drop i |>.find? (fun j => !isAsciiWs (vec.getD j ' '))

/-- The first index strictly after `j` holding a whitespace character. -/
def firstWsAfter (vec : List Char) (j : Nat) : Option Nat :=
  (List.range vec.length).drop (j + 1) |>.find? (fun k => isAsciiWs (vec.getD k ' '))

/-- One step of `OsWhitespaceSplitIter::next` (src/os_string_ext.rs, lines
148–200), returning the slice bounds and the next cursor, or `none` when the
iterator ends.  This reproduces the iterator's quirks: a token consisting of
the final character alone is dropped (the `start_index + 1 >= length` check),
and a token followed by exactly one trailing whitespace character absorbs
it (the `end_index + 1 >= length` adjustment). -/
def osWsNext (vec : List Char) (i : Nat) : Option (Nat × Nat × Nat) :=
  if i < vec.length then
    match firstNonWs vec i with
    | none => none
    | some j =>
      if j + 1 ≥ vec.length then none
      else
        match firstWsAfter vec j with
        | none => some (j, vec.length, vec.length + 1)
        | some k =>
          if k + 1 ≥ vec.length then some (j, vec.length, vec.length + 1)
          else some (j, k, k + 1)
  else none

/-- Collecting the whitespace-split iterator, with fuel (the cursor strictly
increases each step, so `vec.length + 2` steps always suffice). -/
def osWsTokens (vec : List Char) : Nat → Nat → List String
  | 0, _ => []
  | fuel + 1, i =>
    match osWsNext vec i with
    | none => []
    | some (s, e, i2) => String.mk ((vec.drop s).take (e - s)) :: osWsTokens vec fuel i2

/-- `OsStringExt::split_ascii_whitespace` collected to a list, as used by
`LaunchOptions::env_as_iter` (src/launch_options.rs, lines 691–694). -/
def env_as_iter (value : String) : List String :=
  osWsTokens value.data (value.data.length + 2) 0

/-- `OsStringExt::replace(b'/', b'.')` as used for the `sun.java.command`
property (line 470): replace every slash by a dot. -/
def replaceSlashDot (s : String) : String :=
  String.mk (s.data.map (fun c => if c = '/' then '.' else c))

/-- Rust `Debug` formatting of one printable character inside an `OsString`:
quotes and backslashes are escaped, other (printable ASCII) characters are
kept. -/
def rustDebugChar (c : Char) : String :=
  if c = '"' then "\\\"" else if c = '\\' then "\\\\" else String.singleton c

/-- Rust `Debug` formatting of an `OsString` as produced by a
`format!` argument: the contents wrapped in double quotes (this is what
`-Djruby.` rewriting at line 278 interpolates with). -/
def rustDebugFmt (s : String) : String :=
  "\"" ++ String.join (s.data.map rustDebugChar) ++ "\""

/-- Whether the first character of the string is an ASCII lowercase letter
(`char::is_ascii_lowercase` applied to `rest.chars().next()`, line 277). -/
def firstIsAsciiLower (s : String) : Bool :=
  match s.data with
  | [] => false
  | c :: _ => 'a' ≤ c && c ≤ 'z'

/-- `LaunchOptions::check_urandom` (lines 716–733): when `/dev/urandom` is
readable, force the `egd` security property into the runtime-flag list. -/
def check_urandom (st : LaunchOptions) (fs : Fs) : LaunchOptions :=
  if fs.urandomReadable then
    {st with java_opts := st.java_opts ++ ["-Djava.security.egd=file:/dev/urandom"]}
  else st

/-- `LaunchOptions::parse_os` for the Unix, non-macOS build (lines 697–706):
just the urandom check. -/
def parse_os (st : LaunchOptions) (fs : Fs) : LaunchOptions :=
  check_urandom st fs

/-- The environment pre-pass of `LaunchOptions::parse` (lines 179–195):
`JAVA_OPTS` and `JRUBY_OPTS` whitespace-split into the corresponding lists,
the platform pre-pass, then `JAVA_MEM` appended to the java args and
`JAVA_STACK` to the java opts. -/
def parse_preamble (st : LaunchOptions) (env : Environment) (fs : Fs) : LaunchOptions :=
  let st := match env.java_opts with
    | some v => {st with java_opts := st.java_opts ++ env_as_iter v}
    | none => st
  let st := match env.jruby_opts with
    | some v => {st with jruby_opts := st.jruby_opts ++ env_as_iter v}
    | none => st
  let st := parse_os st fs
  let st := match env.java_mem with
    | some v => {st with java_args := st.java_args ++ [v]}
    | none => st
  match env.java_stack with
  | some v => {st with java_opts := st.java_opts ++ [v]}
  | none => st

/-- The token scan of `LaunchOptions::parse` (src/launch_options.rs, lines
201–288): one left-to-right pass with one-token lookahead for value-taking
directives (the `arg_value!` macro returns the `"no extra argument"` error
when no token remains), a `--` terminator that forwards the remainder as
program arguments, fixed directive and passthrough tables, the `--cache`
branch that exits with code 2 when `java_has_appcds` is unset, and the
two-character-prefix classification of longer tokens (`-Xxss...` stored as
the stack-size override; `-X` followed by an ASCII lowercase letter rewritten
with the `Debug` formatter into a `-Djruby.`-prefixed flag; `-J` stripped and
forwarded; anything else a program argument).  Token lengths and the
two-character split are counted in characters, which coincides with the
source's byte counts on ASCII arguments. -/
def parseLoop (st : LaunchOptions) : List String → ParseResult
  | [] => ParseResult.ok st
  | "--" :: args =>
    ParseResult.ok {st with program_args := st.program_args ++ ["--"] ++ args}
  | "-Xfork-java" :: args => parseLoop {st with fork_java := true} args
  | "-Xcommand" :: args => parseLoop {st with command_only := true} args
  | "-Xnobootclasspath" :: args => parseLoop {st with no_boot_classpath := true} args
  | "-Xtrace" :: v :: args =>
    parseLoop {st with launcher_logfile := some (pathFromString v)} args
  | ["-Xtrace"] => ParseResult.err ⟨"no extra argument"⟩
  | "-Xbootclass" :: v :: args => parseLoop {st with boot_class := some v} args
  | ["-Xbootclass"] => ParseResult.err ⟨"no extra argument"⟩
  | "-Xjdkhome" :: v :: args =>
    parseLoop {st with jdk_home := some (pathFromString v)} args
  | ["-Xjdkhome"] => ParseResult.err ⟨"no extra argument"⟩
  | "-Xcp:p" :: v :: args =>
    parseLoop {st with classpath_before := st.classpath_before ++ [pathFromString v]} args
  | ["-Xcp:p"] => ParseResult.err ⟨"no extra argument"⟩
  | "-Xcp:a" :: v :: args =>
    parseLoop {st with classpath_after := st.classpath_after ++ [pathFromString v]} args
  | ["-Xcp:a"] => ParseResult.err ⟨"no extra argument"⟩
  | "-Xversion" :: _ => ParseResult.err ⟨"need to fix -Xversion"⟩
  | "-Xhelp" :: args =>
    parseLoop {st with
      java_args := st.java_args ++ ["-Djruby.launcher.nopreamble=true"],
      program_args := st.program_args ++ ["-X"]} args
  | "-X" :: args =>
    parseLoop {st with
      java_args := st.java_args ++ ["-Djruby.launcher.nopreamble=true"],
      program_args := st.program_args ++ ["-X"]} args
  | "-Xproperties" :: args =>
    parseLoop {st with program_args := st.program_args ++ ["--properties"]} args
  | "-J-cp" :: v :: args =>
    parseLoop {st with classpath_explicit := st.classpath_explicit ++ [pathFromString v]} args
  | ["-J-cp"] => ParseResult.err ⟨"no extra argument"⟩
  | "-J-classpath" :: v :: args =>
    parseLoop {st with classpath_explicit := st.classpath_explicit ++ [pathFromString v]} args
  | ["-J-classpath"] => ParseResult.err ⟨"no extra argument"⟩
  | "--server" :: args => parseLoop {st with java_args := st.java_args ++ ["-server"]} args
  | "--client" :: args => parseLoop {st with java_args := st.java_args ++ ["-client"]} args
  | "--dev" :: args =>
    parseLoop {st with java_args := st.java_args ++ DEV_MODE_JAVA_OPTIONS} args
  | "--sample" :: args => parseLoop {st with java_args := st.java_args ++ ["-Xprof"]} args
  | "--manage" :: args =>
    parseLoop {st with java_args := st.java_args ++
      ["-Dcom.sun.management.jmxremote", "-Djruby.management.enabled=true"]} args
  | "--headless" :: args =>
    parseLoop {st with java_args := st.java_args ++ ["-Djava.awt.headless=true"]} args
  | "--ng" :: args => parseLoop {st with nailgun_client := true} args
  | "--ng-server" :: args =>
    parseLoop {st with
      boot_class := some "com/martiansoftware/nailgun/NGServer",
      java_args := st.java_args ++ ["-server"],
      no_boot_classpath := true} args
  | "--no-bootclasspath" :: args => parseLoop {st with no_boot_classpath := true} args
  | "-Jea" :: args =>
    parseLoop {st with java_args := st.java_args ++ ["-ea"], no_boot_classpath := true} args
  | "--cache" :: args =>
    if !st.java_has_appcds then ParseResult.exited 2
    else parseLoop {st with regenerate_jsa_file := true} args
  | "--nocache" :: args => parseLoop {st with use_jsa_file := false} args
  | "--rmcache" :: args => parseLoop {st with remove_jsa_files := true} args
  | "--logcache" :: args => parseLoop {st with log_cds := true} args
  | arg :: args =>
    if arg.length > 2 then
      let two := String.mk (arg.data.take 2)
      let restTok := String.mk (arg.data.drop 2)
      if two = "-X" && strStartsWith restTok "xss" then
        parseLoop {st with xss := some arg} args
      else if two = "-X" && firstIsAsciiLower restTok then
        parseLoop {st with java_args := st.java_args ++ ["-Djruby." ++ rustDebugFmt restTok]} args
      else if two = "-J" then
        parseLoop {st with java_args := st.java_args ++ [restTok]} args
      else
        parseLoop {st with program_args := st.program_args ++ [arg]} args
    else
      parseLoop {st with program_args := st.program_args ++ [arg]} args

/-- `LaunchOptions::parse` (src/launch_options.rs, lines 178–292): the
environment pre-pass followed by the token scan over the arguments after
argv0.  (On an empty argument vector the source panics on
`expect("Impossible to not have argv0")`; that is modelled as an error
return, and never arises in the pipeline.) -/
def parse (st : LaunchOptions) (env : Environment) (fs : Fs) : ParseResult :=
  match env.args with
  | [] => ParseResult.err ⟨"Impossible to not have argv0"⟩
  | _ :: rest => parseLoop (parse_preamble st env fs) rest

/-- `dir_builder` (src/launch_options.rs, lines 169–175): join a sequence of
subdirectory names onto a base path. -/
def dir_builder (p : FsPath) (subdirs : List String) : FsPath :=
  subdirs.foldl FsPath.joinStr p

/-- `LaunchOptions::jruby_home` (lines 366–368): `dir_builder` applied to the
resolved home (the source unwraps the option; the pipeline always sets it
before `prepare_options` runs). -/
def LaunchOptions.jruby_home_dir (st : LaunchOptions) (subdirs : List String) : FsPath :=
  dir_builder (st.jruby_home.getD emptyPath) subdirs

/-- `std::env::join_paths` on Unix: joins the rendered paths with `:`, and
fails when any path itself contains the separator (the `?` at line 464 turns
that failure into an error return of `prepare_options`). -/
def join_paths (l : List FsPath) : Except LaunchError String :=
  if l.any (fun p => p.render.data.contains ':') then
    Except.error ⟨"path segment contains separator"⟩
  else Except.ok (String.intercalate ":" (l.map FsPath.render))

/-- `join_paths` without the separator check, for the places where the source
unwraps the result or has already validated the same list (lines 479, 592). -/
def join_paths_unchecked (l : List FsPath) : String :=
  String.intercalate ":" (l.map FsPath.render)

/-- `LaunchOptions::add_to_class_path` (lines 648–666): skip a non-existing
path when `only_if_exists`, skip duplicates already on the classpath, skip
paths already on the boot classpath, else append to the classpath. -/
def add_to_class_path (st : LaunchOptions) (path : FsPath) (only_if_exists : Bool)
    (fs : Fs) : LaunchOptions :=
  if only_if_exists && !fs.pathExists path then st
  else if path ∈ st.classpath then st
  else if path ∈ st.boot_classpath then st
  else {st with classpath := st.classpath ++ [path]}

/-- `LaunchOptions::add_to_boot_class_path` (lines 626–646): with
`no_boot_classpath` set, divert to the plain classpath; otherwise skip a
non-existing path when `only_if_exists`, skip duplicates, else append to the
boot classpath. -/
def add_to_boot_class_path (st : LaunchOptions) (path : FsPath) (only_if_exists : Bool)
    (fs : Fs) : LaunchOptions :=
  if st.no_boot_classpath then add_to_class_path st path only_if_exists fs
  else if only_if_exists && !fs.pathExists path then st
  else if path ∈ st.boot_classpath then st
  else {st with boot_classpath := st.boot_classpath ++ [path]}

/-- The boot-classpath construction of `prepare_options` (lines 426–440):
prefer `lib/jruby.jar` (warn-only when `lib/jruby-complete.jar` also exists)
over `lib/jruby-complete.jar`; when neither exists, warn and continue. -/
def construct_boot_classpath (st : LaunchOptions) (fs : Fs) : LaunchOptions :=
  let jruby_complete_jar := st.jruby_home_dir ["lib", "jruby-complete.jar"]
  let jruby_jar := st.jruby_home_dir ["lib", "jruby.jar"]
  if fs.pathExists jruby_jar then add_to_boot_class_path st jruby_jar true fs
  else if fs.pathExists jruby_complete_jar then
    add_to_boot_class_path st jruby_complete_jar false fs
  else st

/-- `LaunchOptions::add_jars_to_classpath` (lines 608–624): when `home/lib` is
a directory, append every entry of its listing whose path ends in `.jar` to
the classpath, in listing order; otherwise log and skip. -/
def add_jars_to_classpath (st : LaunchOptions) (fs : Fs) : LaunchOptions :=
  let lib_dir := (st.jruby_home.getD emptyPath).joinStr "lib"
  if !fs.isDir lib_dir then st
  else {st with classpath := st.classpath ++
    ((fs.readDir lib_dir).filter (fun p => strEndsWith p ".jar")).map pathFromString}

/-- The classpath merge of `prepare_options` before the trailing empty
segment (lines 445–457): with no explicit classpath entries the ambient
`CLASSPATH` value is split and appended; otherwise the explicit entries are
appended (the ambient variable is ignored); then the `-Xcp:a` entries. -/
def merge_classpath_pre (st : LaunchOptions) (envClasspath : Option String) :
    LaunchOptions :=
  let st :=
    if st.classpath_explicit.isEmpty then
      match envClasspath with
      | some c => {st with classpath := st.classpath ++ split_paths c}
      | none => st
    else {st with classpath := st.classpath ++ st.classpath_explicit}
  if !st.classpath_after.isEmpty then
    {st with classpath := st.classpath ++ st.classpath_after}
  else st

/-- The classpath merge of `prepare_options` including the trailing empty
segment (lines 445–462): when the merged classpath is non-empty, one empty
path is appended so the joined string ends in a separator. -/
def merge_classpath (st : LaunchOptions) (envClasspath : Option String) :
    LaunchOptions :=
  let st := merge_classpath_pre st envClasspath
  if !st.classpath.isEmpty then {st with classpath := st.classpath ++ [emptyPath]}
  else st

/-- The identity flags of `prepare_options` (lines 405–424): the optional
`jdk.home` property, the home / script-name / shell properties, the
unconditional `jffi.boot.library.path` property naming `home/lib/jni`, and
the default stack-size flag when no explicit `-Xxss...` was given. -/
def identity_options (st : LaunchOptions) : List String :=
  (match st.jdk_home with
    | some jh => ["-Djdk.home=" ++ jh.render]
    | none => []) ++
  ["-Djruby.home=" ++ (st.jruby_home.getD emptyPath).render,
   "-Djruby.script=jruby", SHELL,
   "-Djffi.boot.library.path=" ++ (st.jruby_home_dir ["lib", "jni"]).render] ++
  (if st.xss.isNone then [XSS_DEFAULT_OPT] else [])

/-- The boot-classpath emission of `prepare_options` (lines 478–490): nothing
when the boot classpath is empty, else a module-path flag on a modular
runtime and a legacy append flag otherwise (the source unwraps the join). -/
def bootclasspath_options (st : LaunchOptions) : List String :=
  if st.boot_classpath.isEmpty then []
  else
    let path := join_paths_unchecked st.boot_classpath
    if st.java_is_modular then ["--module-path=" ++ path]
    else ["-Xbootclasspath/a:" ++ path]

/-- The module-options emission of `prepare_options` (lines 492–510): on a
modular runtime, reference `home/bin/.jruby.module_opts` when it exists, else
the four hard-coded `--add-opens` pairs. -/
def module_options (st : LaunchOptions) (fs : Fs) : List String :=
  if st.java_is_modular then
    let module_opts := st.jruby_home_dir ["bin", ".jruby.module_opts"]
    if fs.pathExists module_opts then ["@" ++ module_opts.render]
    else
      ["--add-opens", "java.base/java.io=org.jruby.dist",
       "--add-opens", "java.base/java.nio.channels=org.jruby.dist",
       "--add-opens", "java.base/sun.nio.ch=org.jruby.dist",
       "--add-opens", "java.management/sun.management=org.jruby.dist"]
  else []

/-- The shared-cache archive resolution of `prepare_options` (lines 512–534):
the version-qualified default archive under `home/lib`; an explicit
environment override wins, else the default when it exists; when neither was
chosen the default path is stored anyway (the commented-out writability check
has no effect). -/
def resolve_jsa (st : LaunchOptions) (env : Environment) (fs : Fs) : LaunchOptions :=
  let jsa_file := st.jruby_home_dir ["lib", "jruby-java" ++ st.java_version ++ ".jsa"]
  let chosen : Option FsPath :=
    match env.jruby_jsa_file with
    | some jsa_env_file => some (pathFromString jsa_env_file)
    | none => if fs.pathExists jsa_file then some jsa_file else none
  match chosen with
  | some f => {st with jruby_jsa_file := some f}
  | none => {st with jruby_jsa_file := some jsa_file}

/-- The shared-cache flag emission of `prepare_options` (lines 536–582),
returning the emitted flags and the state with the recomputed
`regenerate_jsa_file`: a requested regeneration survives only when
`lib/jruby.jar` is newer than the archive; the auto-create flag is emitted on
auto-capable runtimes; the archive-at-exit flag only when regenerating
without auto-creation, and otherwise (including alongside the auto-create
flag) the use-existing-archive flag; then the CDS logging flags, on or off. -/
def cds_options (st : LaunchOptions) (fs : Fs) : List String × LaunchOptions :=
  if st.use_jsa_file then
    let jruby_jar := (st.jruby_home.getD emptyPath).joinStr "lib" |>.joinStr "jruby.jar"
    let regen :=
      if st.regenerate_jsa_file then
        fs.isNewer jruby_jar (st.jruby_jsa_file.getD emptyPath)
      else st.regenerate_jsa_file
    let f := (st.jruby_jsa_file.getD emptyPath).render
    ((if st.appcds_autogenerate then ["-XX:+AutoCreateSharedArchive"] else []) ++
     (if regen && !st.appcds_autogenerate then ["-XX:ArchiveClassesAtExit=" ++ f]
      else ["-XX:SharedArchiveFile=" ++ f]) ++
     (if st.log_cds then
        ["-Xlog:cds=info:file=" ++ f, "-Xlog:cds+dynamic=info:file=" ++ f]
      else ["-Xlog:cds=off", "-Xlog:cds+dynamic=off"]),
     {st with regenerate_jsa_file := regen})
  else ([], st)

/-- `LaunchOptions::prepare_options` (src/launch_options.rs, lines 404–606)
for the non-Windows build.  State updates (boot classpath, jar scan,
classpath merge, boot-class default, archive resolution, regeneration
recomputation) and the assembled `java_options` list are exactly the
source's; the option pushes are gathered in the source's push order.  The
`?` on the `join_paths` logging call at line 464 makes a classpath entry
containing the separator an error return (the second join at line 592 is
over the same, unchanged list). -/
def prepare_options (st : LaunchOptions) (env : Environment) (fs : Fs) :
    Except LaunchError LaunchOptions :=
  let st1 := construct_boot_classpath st fs
  let st2 := add_jars_to_classpath st1 fs
  let st3 := merge_classpath st2 env.classpath
  match join_paths st3.classpath with
  | Except.error e => Except.error e
  | Except.ok _ =>
    let st4 := if st3.boot_class.isNone then {st3 with boot_class := some MAIN_CLASS} else st3
    let st5 := resolve_jsa st4 env fs
    let cds := cds_options st5 fs
    let st6 := cds.2
    let class_path := join_paths_unchecked st6.classpath
    let java_options := st.java_opts ++
      identity_options st ++
      ["-Dsun.java.command=" ++ replaceSlashDot (st4.boot_class.getD MAIN_CLASS)] ++
      bootclasspath_options st6 ++
      module_options st6 fs ++
      cds.1 ++
      (if st6.native_access then ["--enable-native-access=org.jruby.dist"] else []) ++
      (if st6.unsafe_memory then ["--sun-misc-unsafe-memory-access=allow"] else []) ++
      (if st6.fork_java then ["-cp", class_path]
       else ["-Djava.class.path=" ++ class_path])
    Except.ok {st6 with java_opts := java_options}

/-- Rust `str::parse::<u16>`: an optional leading `+`, then one or more ASCII
digits, with the value bounded by the 16-bit range; anything else fails. -/
def parseU16 (s : String) : Option Nat :=
  let ds := match s.data with
    | '+' :: rest => rest
    | l => l
  if ds.isEmpty then none
  else if ds.all Char.isDigit then
    let v := ds.foldl (fun a c => a * 10 + (c.toNat - 48)) 0
    if v < 65536 then some v else none
  else none

/-- `major_version` (src/launch_options.rs, lines 157–160): the numeric value
of the version string's prefix before the first dot (the source unwraps, so
an unparsable prefix — modelled as `none` — is a panic). -/
def major_version (full_version : String) : Option Nat :=
  match splitChar '.' full_version.data with
  | [] => none
  | first :: _ => parseU16 (String.mk first)

/-- `LaunchOptions::make_version_decisions` (lines 346–355): the three
version-gated capability flags at their thresholds 19, 22 and 23. -/
def make_version_decisions (st : LaunchOptions) : LaunchOptions :=
  {st with
    appcds_autogenerate := decide (st.java_major_version ≥ 19),
    native_access := decide (st.java_major_version ≥ 22),
    unsafe_memory := decide (st.java_major_version ≥ 23)}

/-- Whether a flag is one of the three shared-archive flags of the
shared-cache emission: the auto-create flag, an archive-at-exit flag or a
use-existing-archive flag. -/
def isArchiveFlag (s : String) : Bool :=
  strStartsWith s "-XX:+AutoCreateSharedArchive" ||
  strStartsWith s "-XX:ArchiveClassesAtExit=" ||
  strStartsWith s "-XX:SharedArchiveFile="

/-- An environment snapshot with only an argv0 and no variables set. -/
def envEmpty : Environment :=
  ⟨["jruby"], none, none, none, none, none, none, none, none, none, none, none, none⟩

/-- A filesystem capability on which nothing exists. -/
def fsNone : Fs :=
  ⟨fun _ => false, fun _ => false, fun _ => [], fun _ _ => false, false⟩

/-- An options state with only the resolved home `/jr` set. -/
def stWithHome : LaunchOptions :=
  {LaunchOptions.default with jruby_home := some (pathFromString "/jr")}

/-- An options state with home `/jr`, shared-cache use enabled, an
auto-create-capable runtime and version string `21`. -/
def stCdsAuto : LaunchOptions :=
  {stWithHome with use_jsa_file := true, appcds_autogenerate := true, java_version := "21"}

/-- An environment with the explicit home override set to `/opt/deps/jruby`. -/
def envJrubyHome : Environment :=
  {envEmpty with jruby_home := some "/opt/deps/jruby"}

/-- An existence test on which exactly `/opt/deps/jruby/bin` exists. -/
def testBinExists : FsPath → Bool :=
  fun p => decide (p = pathFromString "/opt/deps/jruby/bin")

/-- An options state with one explicit classpath entry (as set by `-J-cp`). -/
def stExplicitCp : LaunchOptions :=
  {stWithHome with classpath_explicit := [pathFromString "/e.jar"]}

/-- An options state with one accumulated classpath entry. -/
def stOneCp : LaunchOptions :=
  {LaunchOptions.default with classpath := [pathFromString "/a.jar"]}

/-- An existence test on which exactly `/b/java` exists. -/
def testFindB : FsPath → Bool :=
  fun q => decide (q = pathFromString "/b/java")

theorem isPrefixOf_append_left_eq (p a y : List Char) (h : p.length ≤ a.length) :
    p.isPrefixOf (a ++ y) = p.isPrefixOf a := by
  induction p generalizing a with
  | nil => simp [List.isPrefixOf]
  | cons c p ih =>
    cases a with
    | nil => simp at h
    | cons d a =>
      show (c == d && p.isPrefixOf (a ++ y)) = (c == d && p.isPrefixOf a)
      rw [ih a (Nat.le_of_succ_le_succ h)]

theorem isPrefixOf_append_false (p a y : List Char)
    (h : (p.take a.length).isPrefixOf a = false) : p.isPrefixOf (a ++ y) = false := by
  induction a generalizing p with
  | nil => simp [List.isPrefixOf] at h
  | cons d a ih =>
    cases p with
    | nil => simp [List.isPrefixOf] at h
    | cons c p =>
      show (c == d && p.isPrefixOf (a ++ y)) = false
      have h2 : (c == d && (p.take a.length).isPrefixOf a) = false := h
      cases hcd : (c == d) with
      | false => simp [hcd]
      | true =>
        simp [hcd] at h2 ⊢
        exact ih p h2

theorem isArchiveFlag_shared_append (x : String) :
    isArchiveFlag ("-XX:SharedArchiveFile=" ++ x) = true := by
  unfold isArchiveFlag strStartsWith
  rw [String.data_append]
  rw [isPrefixOf_append_left_eq "-XX:SharedArchiveFile=".data "-XX:SharedArchiveFile=".data
    x.data (by decide)]
  simp

theorem isArchiveFlag_atexit_append (x : String) :
    isArchiveFlag ("-XX:ArchiveClassesAtExit=" ++ x) = true := by
  unfold isArchiveFlag strStartsWith
  rw [String.data_append]
  rw [isPrefixOf_append_left_eq "-XX:ArchiveClassesAtExit=".data "-XX:ArchiveClassesAtExit=".data
    x.data (by decide)]
  simp

theorem isArchiveFlag_logfile_append (x : String) :
    isArchiveFlag ("-Xlog:cds=info:file=" ++ x) = false := by
  unfold isArchiveFlag strStartsWith
  rw [String.data_append]
  rw [isPrefixOf_append_false "-XX:+AutoCreateSharedArchive".data "-Xlog:cds=info:file=".data
    x.data (by decide)]
  rw [isPrefixOf_append_false "-XX:ArchiveClassesAtExit=".data "-Xlog:cds=info:file=".data
    x.data (by decide)]
  rw [isPrefixOf_append_false "-XX:SharedArchiveFile=".data "-Xlog:cds=info:file=".data
    x.data (by decide)]
  rfl

theorem isArchiveFlag_logdyn_append (x : String) :
    isArchiveFlag ("-Xlog:cds+dynamic=info:file=" ++ x) = false := by
  unfold isArchiveFlag strStartsWith
  rw [String.data_append]
  rw [isPrefixOf_append_false "-XX:+AutoCreateSharedArchive".data
    "-Xlog:cds+dynamic=info:file=".data x.data (by decide)]
  rw [isPrefixOf_append_false "-XX:ArchiveClassesAtExit=".data
    "-Xlog:cds+dynamic=info:file=".data x.data (by decide)]
  rw [isPrefixOf_append_false "-XX:SharedArchiveFile=".data
    "-Xlog:cds+dynamic=info:file=".data x.data (by decide)]
  rfl

theorem isArchiveFlag_auto_lit : isArchiveFlag "-XX:+AutoCreateSharedArchive" = true := by decide

theorem isArchiveFlag_logoff_lit : isArchiveFlag "-Xlog:cds=off" = false := by decide

theorem isArchiveFlag_logdynoff_lit : isArchiveFlag "-Xlog:cds+dynamic=off" = false := by decide

theorem splitChar_ne_nil (sep : Char) (l : List Char) : splitChar sep l ≠ [] := by
  cases l with
  | nil => simp [splitChar]
  | cons c cs =>
    unfold splitChar
    cases splitChar sep cs with
    | nil => simp
    | cons t ts =>
      by_cases hc : c = sep <;> simp [hc]

theorem split_paths_ne_nil (s : String) : split_paths s ≠ [] := by
  unfold split_paths
  intro hx
  exact splitChar_ne_nil ':' s.data (List.map_eq_nil_iff.mp hx)

theorem construct_boot_classpath_explicit (st : LaunchOptions) (fs : Fs) :
    (construct_boot_classpath st fs).classpath_explicit = st.classpath_explicit := by
  simp only [construct_boot_classpath, add_to_boot_class_path, add_to_class_path]
  split_ifs <;> rfl

theorem add_jars_to_classpath_explicit (st : LaunchOptions) (fs : Fs) :
    (add_jars_to_classpath st fs).classpath_explicit = st.classpath_explicit := by
  simp only [add_jars_to_classpath]
  split_ifs <;> rfl

theorem merge_classpath_env_irrel (st : LaunchOptions) (c1 c2 : Option String)
    (h : st.classpath_explicit ≠ []) : merge_classpath st c1 = merge_classpath st c2 := by
  unfold merge_classpath merge_classpath_pre
  have he : st.classpath_explicit.isEmpty = false := by
    cases hx : st.classpath_explicit with
    | nil => exact absurd hx h
    | cons a l => rfl
  rw [he]
  simp

theorem resolve_jsa_env_classpath_irrel (st : LaunchOptions) (env : Environment)
    (c : Option String) (fs : Fs) :
    resolve_jsa st {env with classpath := c} fs = resolve_jsa st env fs := rfl

theorem resolve_jsa_classpath (st : LaunchOptions) (env : Environment) (fs : Fs) :
    (resolve_jsa st env fs).classpath = st.classpath := by
  unfold resolve_jsa
  cases env.jruby_jsa_file with
  | none =>
    dsimp only
    split <;> rfl
  | some f => rfl

theorem cds_options_classpath (st : LaunchOptions) (fs : Fs) :
    (cds_options st fs).2.classpath = st.classpath := by
  unfold cds_options
  split_ifs <;> rfl

theorem parse_preamble_java_has_appcds (st : LaunchOptions) (env : Environment) (fs : Fs) :
    (parse_preamble st env fs).java_has_appcds = st.java_has_appcds := by
  obtain ⟨ar, cp, cd, jc, je, jh, jm, jo, js, jro, jrh, pa, jjf⟩ := env
  obtain ⟨pe, idir, rd, inew, ur⟩ := fs
  unfold parse_preamble parse_os check_urandom
  cases jo <;> cases jro <;> cases jm <;> cases js <;> cases ur <;> rfl

theorem findInDirs_none (file : String) (test : FsPath → Bool) (ds : List String)
    (h : ∀ d ∈ ds, test (pathCandidate d file) = false) :
    findInDirs file test ds = none := by
  induction ds with
  | nil => rfl
  | cons d ds ih =>
    simp only [findInDirs]
    rw [h d (by simp)]
    exact ih (fun x hx => h x (by simp [hx]))

theorem findInDirs_first (file : String) (test : FsPath → Bool) (ds : List String) (i : Nat)
    (hi : i < ds.length)
    (ht : test (pathCandidate (ds.getD i "") file) = true)
    (hb : ∀ j, j < i → test (pathCandidate (ds.getD j "") file) = false) :
    findInDirs file test ds = some (pathCandidate (ds.getD i "") file) := by
  induction ds generalizing i with
  | nil => simp at hi
  | cons d ds ih =>
    cases i with
    | zero =>
      simp only [findInDirs]
      simp only [List.getD_cons_zero] at ht ⊢
      rw [ht]
      simp
    | succ i =>
      simp only [findInDirs]
      have h0 : test (pathCandidate d file) = false := by
        have := hb 0 (Nat.succ_pos i)
        simpa using this
      rw [h0]
      simp only [List.getD_cons_succ] at ht ⊢
      exact ih i (Nat.lt_of_succ_lt_succ hi) ht
        (fun j hj => by simpa using hb (j + 1) (Nat.succ_lt_succ hj))

/-- Claim C1.  The claim states that when the explicit home override
(`JRUBY_HOME`) is set and a `bin` subdirectory exists under it, home
resolution returns that directory exactly as given with no ancestor climbing.
In the code this fails: `determine_jruby_executable` does return the override
directory as-is, but `launch_options::new` then applies
`ancestors().take(3).collect()` to every result uniformly, so the final home
for the override `/opt/deps/jruby` (whose `bin` exists) is its grandparent
`/opt`, not `/opt/deps/jruby`. -/
theorem c1_home_override_climbed :
    determine_jruby_executable envJrubyHome none testBinExists =
      Except.ok (pathFromString "/opt/deps/jruby")
    ∧ resolve_jruby_home envJrubyHome none testBinExists = Except.ok (pathFromString "/opt")
    ∧ pathFromString "/opt" ≠ pathFromString "/opt/deps/jruby" :=
  ⟨rfl, rfl, by decide⟩

/-- Counterexample to claim C2 as stated: with a home of `/jr` and a
filesystem on which nothing exists (in particular neither `lib/jni` nor
`lib/native`), option assembly succeeds — rather than failing with a fatal
`JniDirNotFound` error — and still emits the native-library search-path
property naming `/jr/lib/jni`. -/
theorem c2_counterexample :
    (prepare_options stWithHome envEmpty fsNone).toOption.map
      (fun r => r.java_opts.contains "-Djffi.boot.library.path=/jr/lib/jni") = some true := rfl

/-- Claim C2, amended.  Option assembly never checks for the native-library
directory and has no `JniDirNotFound` error: whenever it returns options, the
`jffi.boot.library.path` property naming `home/lib/jni` is among them (the
legacy `lib/native` layout is never consulted), and its only error return is
the path-list join failure for a classpath entry containing the separator. -/
theorem c2_jni_flag_unconditional (st : LaunchOptions) (env : Environment) (fs : Fs) :
    match prepare_options st env fs with
    | Except.ok r =>
      ("-Djffi.boot.library.path=" ++ (st.jruby_home_dir ["lib", "jni"]).render) ∈ r.java_opts
    | Except.error e => e.message = "path segment contains separator" := by
  unfold prepare_options
  cases hj : join_paths (merge_classpath (add_jars_to_classpath (construct_boot_classpath st fs) fs)
      env.classpath).classpath with
  | error e =>
    simp only [hj]
    unfold join_paths at hj
    split at hj
    · injection hj with hj2
      subst hj2
      rfl
    · exact absurd hj (by simp)
  | ok s =>
    simp only [hj]
    simp [identity_options, List.mem_append]

/-- Claim C3.  The claim states that `-X<rest>` tokens (length over two,
`<rest>` starting with an ASCII lowercase letter, not a stack-size token) are
rewritten to exactly `-Djruby.` followed by `<rest>`.  In the code the rewrite
interpolates `<rest>` with the `Debug` formatter of `OsString`, which wraps
it in double quotes, so `-Xcompile.mode=OFF` produces the flag
`-Djruby."compile.mode=OFF"` (quotes included), not
`-Djruby.compile.mode=OFF`; stack-size tokens are indeed stored as the
override and not rewritten. -/
theorem c3_property_rewrite_debug_quoted :
    parseLoop LaunchOptions.default ["-Xcompile.mode=OFF"] =
      ParseResult.ok {LaunchOptions.default with
        java_args := ["-Djruby.\"compile.mode=OFF\""]}
    ∧ "-Djruby.\"compile.mode=OFF\"" ≠ "-Djruby.compile.mode=OFF"
    ∧ parseLoop LaunchOptions.default ["-Xxss4m"] =
      ParseResult.ok {LaunchOptions.default with xss := some "-Xxss4m"} :=
  ⟨rfl, by decide, rfl⟩

/-- Counterexample to claim C4 as stated: the argument list
`["jruby", "-Xtrace", "--cache"]` contains the token `--cache` before any
`--` terminator, yet parsing does not exit with code 2 — `--cache` is
consumed as the value of the preceding `-Xtrace` directive and the parse
succeeds. -/
theorem c4_counterexample :
    parse LaunchOptions.default {envEmpty with args := ["jruby", "-Xtrace", "--cache"]} fsNone =
      ParseResult.ok {LaunchOptions.default with
        launcher_logfile := some (pathFromString "--cache")}
    ∧ parse LaunchOptions.default {envEmpty with args := ["jruby", "-Xtrace", "--cache"]} fsNone ≠
        ParseResult.exited 2 :=
  ⟨rfl, by decide⟩

set_option maxHeartbeats 1600000 in
/-- Claim C4, amended.  Whenever the scanner reaches `--cache` as a directive
(in particular, whenever it was not consumed as the value of a preceding
value-taking directive) while the AppCDS capability flag is still false — as
it always is during the parse phase, which runs from the default state before
any runtime probing — parsing exits with code 2, regardless of the
environment, the remaining arguments and the actual installed runtime. -/
theorem c4_cache_exits_in_parse :
    (∀ (st : LaunchOptions) (args : List String), st.java_has_appcds = false →
      parseLoop st ("--cache" :: args) = ParseResult.exited 2)
    ∧ (∀ (st : LaunchOptions) (env : Environment) (fs : Fs) (a0 : String) (args : List String),
        st.java_has_appcds = false → env.args = a0 :: "--cache" :: args →
        parse st env fs = ParseResult.exited 2) := by
  have hloop : ∀ (st : LaunchOptions) (args : List String), st.java_has_appcds = false →
      parseLoop st ("--cache" :: args) = ParseResult.exited 2 := by
    intro st args h
    simp only [parseLoop]
    rw [h]
    rfl
  refine ⟨hloop, ?_⟩
  intro st env fs a0 args h ha
  unfold parse
  rw [ha]
  exact hloop _ _ (by rw [parse_preamble_java_has_appcds]; exact h)

/-- Witness for claim C4's amended theorem at the concrete inputs
`["--cache"]` and `["jruby", "--cache"]` from the default state. -/
theorem c4_cache_exits_in_parse_witness :
    parseLoop LaunchOptions.default ["--cache"] = ParseResult.exited 2
    ∧ parse LaunchOptions.default {envEmpty with args := ["jruby", "--cache"]} fsNone =
        ParseResult.exited 2 :=
  ⟨c4_cache_exits_in_parse.1 LaunchOptions.default [] rfl,
   c4_cache_exits_in_parse.2 LaunchOptions.default _ fsNone "jruby" [] rfl rfl⟩

/-- Counterexample to claim C5 as stated: with shared-cache use enabled and an
auto-create-capable runtime, the assembled flag list contains two of the
three archive flags — the auto-create flag and the use-existing-archive
flag — not exactly one. -/
theorem c5_counterexample :
    (prepare_options stCdsAuto envEmpty fsNone).toOption.map
      (fun r => (r.java_opts.filter isArchiveFlag).length) = some 2 := rfl

/-- Claim C5, amended.  When shared-cache use is enabled, the chain is not
fully exclusive: on an auto-create-capable runtime (major version at or above
the threshold 19, per `make_version_decisions`) both the auto-create flag and
the use-existing-archive flag naming the archive are emitted; otherwise, if
regeneration was requested and survives the staleness check (`lib/jruby.jar`
newer than the archive), exactly the archive-at-exit flag is emitted, and
exactly the use-existing-archive flag otherwise. -/
theorem c5_archive_flag_chain (st : LaunchOptions) (fs : Fs) (h : st.use_jsa_file = true) :
    (cds_options st fs).1.filter isArchiveFlag =
      (if st.appcds_autogenerate then
        ["-XX:+AutoCreateSharedArchive",
         "-XX:SharedArchiveFile=" ++ (st.jruby_jsa_file.getD emptyPath).render]
      else if (if st.regenerate_jsa_file then
          fs.isNewer (((st.jruby_home.getD emptyPath).joinStr "lib").joinStr "jruby.jar")
            (st.jruby_jsa_file.getD emptyPath)
        else st.regenerate_jsa_file) then
        ["-XX:ArchiveClassesAtExit=" ++ (st.jruby_jsa_file.getD emptyPath).render]
      else ["-XX:SharedArchiveFile=" ++ (st.jruby_jsa_file.getD emptyPath).render])
    ∧ (make_version_decisions st).appcds_autogenerate = decide (19 ≤ st.java_major_version) := by
  refine ⟨?_, rfl⟩
  unfold cds_options
  rw [h]
  cases hA : st.appcds_autogenerate <;>
    cases hR : st.regenerate_jsa_file <;>
      cases hL : st.log_cds <;>
        cases hN : fs.isNewer (((st.jruby_home.getD emptyPath).joinStr "lib").joinStr "jruby.jar")
            (st.jruby_jsa_file.getD emptyPath) <;>
          simp [hA, hR, hL, hN, isArchiveFlag_auto_lit, isArchiveFlag_shared_append,
            isArchiveFlag_atexit_append, isArchiveFlag_logfile_append,
            isArchiveFlag_logdyn_append, isArchiveFlag_logoff_lit, isArchiveFlag_logdynoff_lit,
            List.filter]

/-- Witness for claim C5's amended theorem at the concrete auto-create
state. -/
theorem c5_archive_flag_chain_witness :
    stCdsAuto.use_jsa_file = true
    ∧ (cds_options stCdsAuto fsNone).1.filter isArchiveFlag =
      ["-XX:+AutoCreateSharedArchive", "-XX:SharedArchiveFile="] := by
  refine ⟨rfl, ?_⟩
  have h := (c5_archive_flag_chain stCdsAuto fsNone rfl).1
  rw [h]
  rfl

/-- Claim C6.  With at least one explicit classpath entry, the whole result of
option assembly — classpath and final flag list — is identical across any two
environments differing only in the `CLASSPATH` variable (explicit wins, the
ambient variable is ignored entirely); with no explicit entry, the ambient
`CLASSPATH` is split on the platform path separator and its entries are
merged into the classpath, between the scanned jars and the `-Xcp:a`
entries. -/
theorem c6_explicit_classpath_wins :
    (∀ (st : LaunchOptions) (env : Environment) (fs : Fs) (c1 c2 : Option String),
      st.classpath_explicit ≠ [] →
      prepare_options st {env with classpath := c1} fs =
        prepare_options st {env with classpath := c2} fs)
    ∧ (∀ (st : LaunchOptions) (c : String), st.classpath_explicit = [] →
        (merge_classpath st (some c)).classpath =
          st.classpath ++ split_paths c ++ st.classpath_after ++ [emptyPath]) := by
  constructor
  · intro st env fs c1 c2 h
    have h2 : (add_jars_to_classpath (construct_boot_classpath st fs) fs).classpath_explicit
        ≠ [] := by
      rw [add_jars_to_classpath_explicit, construct_boot_classpath_explicit]
      exact h
    unfold prepare_options
    dsimp only
    rw [merge_classpath_env_irrel _ c1 c2 h2, resolve_jsa_env_classpath_irrel,
      resolve_jsa_env_classpath_irrel]
    rfl
  · intro st c h
    unfold merge_classpath merge_classpath_pre
    rw [h]
    have hne : st.classpath ++ split_paths c ≠ [] := by
      intro hx
      exact split_paths_ne_nil c (List.append_eq_nil.mp hx).2
    cases ha : st.classpath_after with
    | nil => simp [hne]
    | cons a l =>
      have hne2 : st.classpath ++ split_paths c ++ (a :: l) ≠ [] := by simp
      simp [hne2]

/-- Witness for claim C6 at concrete inputs: an explicit entry makes assembly
agree across `CLASSPATH` values `/x` and `/y`; with no explicit entry,
`CLASSPATH` `a:b` is split and merged with one trailing empty segment. -/
theorem c6_explicit_classpath_wins_witness :
    stExplicitCp.classpath_explicit ≠ []
    ∧ prepare_options stExplicitCp {envEmpty with classpath := some "/x"} fsNone =
        prepare_options stExplicitCp {envEmpty with classpath := some "/y"} fsNone
    ∧ LaunchOptions.default.classpath_explicit = []
    ∧ (merge_classpath LaunchOptions.default (some "a:b")).classpath =
        LaunchOptions.default.classpath ++ split_paths "a:b" ++
          LaunchOptions.default.classpath_after ++ [emptyPath] :=
  ⟨by decide,
   c6_explicit_classpath_wins.1 stExplicitCp envEmpty fsNone (some "/x") (some "/y") (by decide),
   rfl,
   c6_explicit_classpath_wins.2 LaunchOptions.default "a:b" rfl⟩

set_option maxHeartbeats 1600000 in
/-- Claim C7.  Each value-taking launcher directive (`-Xtrace`, `-Xbootclass`,
`-Xjdkhome`, `-Xcp:p`, `-Xcp:a`, `-J-cp`, `-J-classpath`) scanned with no
following token remaining makes the parse return the missing-argument-value
error (`"no extra argument"`) rather than succeed; scanned with a following
token, it consumes exactly that one token as its value and the scan
continues. -/
theorem c7_value_directives :
    (∀ st : LaunchOptions, parseLoop st ["-Xtrace"] = ParseResult.err ⟨"no extra argument"⟩)
    ∧ (∀ (st : LaunchOptions) (v : String) (args : List String),
        parseLoop st ("-Xtrace" :: v :: args) =
          parseLoop {st with launcher_logfile := some (pathFromString v)} args)
    ∧ (∀ st : LaunchOptions, parseLoop st ["-Xbootclass"] = ParseResult.err ⟨"no extra argument"⟩)
    ∧ (∀ (st : LaunchOptions) (v : String) (args : List String),
        parseLoop st ("-Xbootclass" :: v :: args) =
          parseLoop {st with boot_class := some v} args)
    ∧ (∀ st : LaunchOptions, parseLoop st ["-Xjdkhome"] = ParseResult.err ⟨"no extra argument"⟩)
    ∧ (∀ (st : LaunchOptions) (v : String) (args : List String),
        parseLoop st ("-Xjdkhome" :: v :: args) =
          parseLoop {st with jdk_home := some (pathFromString v)} args)
    ∧ (∀ st : LaunchOptions, parseLoop st ["-Xcp:p"] = ParseResult.err ⟨"no extra argument"⟩)
    ∧ (∀ (st : LaunchOptions) (v : String) (args : List String),
        parseLoop st ("-Xcp:p" :: v :: args) =
          parseLoop {st with classpath_before := st.classpath_before ++ [pathFromString v]} args)
    ∧ (∀ st : LaunchOptions, parseLoop st ["-Xcp:a"] = ParseResult.err ⟨"no extra argument"⟩)
    ∧ (∀ (st : LaunchOptions) (v : String) (args : List String),
        parseLoop st ("-Xcp:a" :: v :: args) =
          parseLoop {st with classpath_after := st.classpath_after ++ [pathFromString v]} args)
    ∧ (∀ st : LaunchOptions, parseLoop st ["-J-cp"] = ParseResult.err ⟨"no extra argument"⟩)
    ∧ (∀ (st : LaunchOptions) (v : String) (args : List String),
        parseLoop st ("-J-cp" :: v :: args) =
          parseLoop {st with classpath_explicit := st.classpath_explicit ++ [pathFromString v]} args)
    ∧ (∀ st : LaunchOptions, parseLoop st ["-J-classpath"] = ParseResult.err ⟨"no extra argument"⟩)
    ∧ (∀ (st : LaunchOptions) (v : String) (args : List String),
        parseLoop st ("-J-classpath" :: v :: args) =
          parseLoop {st with classpath_explicit := st.classpath_explicit ++ [pathFromString v]} args) :=
  ⟨fun _ => rfl, fun _ _ _ => rfl, fun _ => rfl, fun _ _ _ => rfl, fun _ => rfl,
   fun _ _ _ => rfl, fun _ => rfl, fun _ _ _ => rfl, fun _ => rfl, fun _ _ _ => rfl,
   fun _ => rfl, fun _ _ _ => rfl, fun _ => rfl, fun _ _ _ => rfl⟩

/-- Claim C8.  After the classpath merge of option assembly: when the merged
classpath (before the trailing-segment step) is empty, nothing is appended
and it stays empty; when it is non-empty, exactly one empty segment is
appended as its last element (so the joined string gains a trailing
separator); and the classpath of any successful `prepare_options` result is
exactly this merged classpath — no later step changes it. -/
theorem c8_trailing_empty_segment :
    (∀ (st : LaunchOptions) (ec : Option String),
      (merge_classpath_pre st ec).classpath = [] → (merge_classpath st ec).classpath = [])
    ∧ (∀ (st : LaunchOptions) (ec : Option String),
        (merge_classpath_pre st ec).classpath ≠ [] →
        (merge_classpath st ec).classpath = (merge_classpath_pre st ec).classpath ++ [emptyPath])
    ∧ (∀ (st : LaunchOptions) (env : Environment) (fs : Fs) (r : LaunchOptions),
        prepare_options st env fs = Except.ok r →
        r.classpath = (merge_classpath (add_jars_to_classpath (construct_boot_classpath st fs) fs)
          env.classpath).classpath) := by
  refine ⟨?_, ?_, ?_⟩
  · intro st ec h
    unfold merge_classpath
    dsimp only
    rw [h]
    simp
    exact h
  · intro st ec h
    unfold merge_classpath
    dsimp only
    have he : (merge_classpath_pre st ec).classpath.isEmpty = false := by
      cases hx : (merge_classpath_pre st ec).classpath with
      | nil => exact absurd hx h
      | cons a l => rfl
    rw [he]
    simp
  · intro st env fs r h
    unfold prepare_options at h
    cases hj : join_paths (merge_classpath (add_jars_to_classpath
        (construct_boot_classpath st fs) fs) env.classpath).classpath with
    | error e =>
      simp only [hj] at h
      exact Except.noConfusion h
    | ok s =>
      simp only [hj] at h
      injection h with h2
      subst h2
      dsimp only
      rw [cds_options_classpath, resolve_jsa_classpath]
      split <;> rfl

/-- Witness for claim C8 at concrete inputs: an empty merge stays empty, a
one-entry merge gains exactly the trailing empty segment, and a successful
assembly's classpath is the merged classpath. -/
theorem c8_trailing_empty_segment_witness :
    (merge_classpath_pre LaunchOptions.default none).classpath = []
    ∧ (merge_classpath LaunchOptions.default none).classpath = []
    ∧ (merge_classpath_pre stOneCp none).classpath ≠ []
    ∧ (merge_classpath stOneCp none).classpath =
        (merge_classpath_pre stOneCp none).classpath ++ [emptyPath]
    ∧ ((prepare_options stWithHome envEmpty fsNone).toOption.getD LaunchOptions.default).classpath =
        (merge_classpath (add_jars_to_classpath (construct_boot_classpath stWithHome fsNone)
          fsNone) envEmpty.classpath).classpath :=
  ⟨rfl,
   c8_trailing_empty_segment.1 LaunchOptions.default none rfl,
   by decide,
   c8_trailing_empty_segment.2.1 stOneCp none (by decide),
   c8_trailing_empty_segment.2.2 stWithHome envEmpty fsNone _ rfl⟩

/-- Claim C9.  `major_version` returns the integer value of the version
string's prefix before the first dot: `"17.0.2"` parses to 17 and the legacy
form `"1.8.0_292"` to 1 (the documented, uncorrected quirk). -/
theorem c9_major_version_prefix :
    major_version "17.0.2" = some 17 ∧ major_version "1.8.0_292" = some 1 :=
  ⟨rfl, rfl⟩

/-- Claim C10.  `find_from_path` returns `none` when the path list is absent;
returns `none` when no directory-joined candidate satisfies the existence
predicate; and returns the candidate of the first segment (in path-list
order, splitting on the native separator) whose joined candidate satisfies
the predicate. -/
theorem c10_find_from_path_first :
    (∀ (file : String) (test : FsPath → Bool), find_from_path file none test = none)
    ∧ (∀ (file paths : String) (test : FsPath → Bool),
        (∀ d ∈ pathSegments paths, test (pathCandidate d file) = false) →
        find_from_path file (some paths) test = none)
    ∧ (∀ (file paths : String) (test : FsPath → Bool) (i : Nat),
        i < (pathSegments paths).length →
        test (pathCandidate ((pathSegments paths).getD i "") file) = true →
        (∀ j, j < i → test (pathCandidate ((pathSegments paths).getD j "") file) = false) →
        find_from_path file (some paths) test =
          some (pathCandidate ((pathSegments paths).getD i "") file)) := by
  refine ⟨fun _ _ => rfl, ?_, ?_⟩
  · intro file paths test h
    exact findInDirs_none file test (pathSegments paths) h
  · intro file paths test i hi ht hb
    exact findInDirs_first file test (pathSegments paths) i hi ht hb

/-- Witness for claim C10 at concrete inputs: no path list gives nothing, a
list with no matching candidate gives nothing, and on `/a:/b` with only
`/b/java` existing the second segment's candidate is returned. -/
theorem c10_find_from_path_first_witness :
    find_from_path "java" none testFindB = none
    ∧ find_from_path "java" (some "/n1:/n2") testFindB = none
    ∧ find_from_path "java" (some "/a:/b") testFindB =
        some (pathCandidate ((pathSegments "/a:/b").getD 1 "") "java") :=
  ⟨c10_find_from_path_first.1 "java" testFindB,
   c10_find_from_path_first.2.1 "java" "/n1:/n2" testFindB (by decide),
   c10_find_from_path_first.2.2 "java" "/a:/b" testFindB 1 (by decide) (by decide) (by decide)⟩
